import Mathlib

/-!
Shallow embedding of the heterogeneous multi-backend data-access layer of the
dual-database frontend (`frontend_application.py`, Assignment 4 variant):
backend connection management, schema/table discovery with cross-backend name
unification, and CRUD dispatch with backend-specific query construction and
key resolution.  The relational backend state is a list of tables with
declared columns, declared primary-key columns and rows; the document backend
state is a list of collections holding ordered field maps.  Fallible
operations return `Except Exn _`, where `Exn` distinguishes the relational
driver's `Error` class (the only exception class the main loop catches) from
`KeyboardInterrupt` and from every other Python exception.
-/

namespace CT80

/-- Embeds the `DatabaseType` enum of `frontend_application.py` (lines 12-19). -/
inductive DatabaseType where
  | UNKNOWN
  | MYSQL
  | MONGODB
deriving DecidableEq, Repr

/-- Renders a `DatabaseType` the way Python's f-string renders the enum member. -/
def DatabaseType.toStr : DatabaseType → String
  | .UNKNOWN => "DatabaseType.UNKNOWN"
  | .MYSQL => "DatabaseType.MYSQL"
  | .MONGODB => "DatabaseType.MONGODB"

/-- Embeds the `DatabaseInformation` dataclass (lines 22-34). -/
structure DatabaseInformation where
  db_type : DatabaseType := .UNKNOWN
  host : String := "127.0.0.1"
  port : Nat := 0
  name : String := "radar_db"
  user : String := "root"
  password : String := "SuperSecureMilitaryPassword"
  timeout_seconds : Nat := 5
deriving DecidableEq, Repr

/-- Cell / field values moved between the application and the backends. -/
inductive Value where
  | int (i : Int)
  | str (s : String)
deriving DecidableEq, Repr

/-- State of one relational table: its native name, its columns in declaration
order (the order `DESCRIBE` reports), its declared primary-key columns (the
catalog metadata `INFORMATION_SCHEMA.COLUMNS ... COLUMN_KEY = PRI` would
report), and its rows, each row listing one value per column. -/
structure MySQLTable where
  name : String
  columns : List String
  pkColumns : List String
  rows : List (List Value)
deriving DecidableEq, Repr

/-- State of one document-store collection: its native name and its documents,
each an ordered association list of field name to value (Python dict order). -/
structure MongoCollection where
  name : String
  documents : List (List (String × Value))
deriving DecidableEq, Repr

/-- Joint state of the two connected backends. -/
structure DBState where
  mysqlTables : List MySQLTable
  mongoCollections : List MongoCollection
deriving DecidableEq, Repr

/-- Exceptions: `dbError` embeds `mysql.connector.Error` (the class both
`raise` statements construct and the only class the main loop's
`except Error` clause catches); `keyboardInterrupt` embeds
`KeyboardInterrupt`; `otherError` embeds every other Python exception
(`IndexError`, `ValueError`, `AttributeError`, pymongo errors, ...). -/
inductive Exn where
  | dbError (msg : String)
  | keyboardInterrupt
  | otherError (msg : String)
deriving DecidableEq, Repr

instance {ε α : Type} [DecidableEq ε] [DecidableEq α] : DecidableEq (Except ε α)
  | .ok a, .ok b =>
      if h : a = b then isTrue (by rw [h]) else isFalse (fun hh => h (Except.ok.inj hh))
  | .ok _, .error _ => isFalse (fun h => Except.noConfusion h)
  | .error _, .ok _ => isFalse (fun h => Except.noConfusion h)
  | .error e, .error f =>
      if h : e = f then isTrue (by rw [h]) else isFalse (fun hh => h (Except.error.inj hh))

/-! ### Python string case folding

Python's `str.upper()` and `str.lower()`, modelled character-wise (the
identifiers involved are ASCII). -/

/-- Character-wise upper-casing of a string. -/
def pyUpper (s : String) : String :=
  String.mk (s.data.map Char.toUpper)

/-- Character-wise lower-casing of a string. -/
def pyLower (s : String) : String :=
  String.mk (s.data.map Char.toLower)

/-! ### Python list helpers -/

/-- Appends to `acc` each element of `l` not already present, in order: the
`if x not in acc: acc.append(x)` idiom of the source. -/
def pyUnionInto (acc l : List String) : List String :=
  l.foldl (fun a x => if x ∈ a then a else a ++ [x]) acc

/-- First-occurrence deduplication, as the source's accumulation idiom
produces when started from the empty list. -/
def pyDedup (l : List String) : List String :=
  pyUnionInto [] l

/-- Lexicographic comparison of character lists by code point, the order
Python's string comparison uses. -/
def charLe : List Char → List Char → Bool
  | [], _ => true
  | _ :: _, [] => false
  | a :: as, b :: bs =>
      if a.toNat < b.toNat then true
      else if b.toNat < a.toNat then false
      else charLe as bs

/-- Python's `<=` on strings: lexicographic by code point. -/
def pyLe (a b : String) : Prop :=
  charLe a.data b.data = true

instance : DecidableRel pyLe := fun a b =>
  inferInstanceAs (Decidable (charLe a.data b.data = true))

/-- Python's `list.sort()` on strings: ascending lexicographic sort. -/
def pySort (l : List String) : List String :=
  List.insertionSort pyLe l

/-! ### Schema discovery and the unified catalog -/

/-- Native table/collection names as each backend enumerates them:
`SHOW TABLES` for the relational backend, `list_collection_names()` for the
document backend (`__get_tables_in_database`, lines 164-173). -/
def nativeNames (db : DBState) : DatabaseType → List String
  | .MYSQL => db.mysqlTables.map (·.name)
  | .MONGODB => db.mongoCollections.map (·.name)
  | .UNKNOWN => []

/-- Normalized (canonical) forms of the native names before deduplication:
relational names are kept as given, document names are upper-cased
(`__get_tables_in_database`, lines 167-176). -/
def normalizedNames (db : DBState) : DatabaseType → List String
  | .MYSQL => nativeNames db .MYSQL
  | .MONGODB => (nativeNames db .MONGODB).map pyUpper
  | .UNKNOWN => []

/-- Embeds `FrontendApplication.__get_tables_in_database` (lines 145-178):
per-backend list of canonical names, deduplicated by the `not in` check.
Connections are assumed live (every claim below is about behaviour after
startup connection succeeds). -/
def getTablesInDatabase (db : DBState) (t : DatabaseType) : List String :=
  pyDedup (normalizedNames db t)

/-- Embeds the catalog-union loop of `__ask_to_select_table` (lines 183-188):
the canonical names of each connected backend are folded into one
first-occurrence-deduplicated list, iterating backends in the insertion order
of `self.__db_connections`. -/
def uniqueTables (db : DBState) (conns : List DatabaseType) : List String :=
  conns.foldl (fun acc t => pyUnionInto acc (getTablesInDatabase db t)) []

/-- Embeds the catalog presented for table selection by
`__ask_to_select_table` (lines 183-190): the deduplicated union, sorted by
`unique_tables.sort()`. -/
def askToSelectTableCatalog (db : DBState) (conns : List DatabaseType) : List String :=
  pySort (uniqueTables db conns)

/-! ### Python `int()` on user input -/

/-- Strips leading and trailing whitespace, as `int()` tolerates around the
number. -/
def stripWS (cs : List Char) : List Char :=
  ((cs.dropWhile Char.isWhitespace).reverse.dropWhile Char.isWhitespace).reverse

/-- Decimal value of a digit string. -/
def digitsToNat (cs : List Char) : Nat :=
  cs.foldl (fun a c => a * 10 + (c.toNat - 48)) 0

/-- Embeds Python's `int(string)` as used on key input (lines 346 and 386):
optional surrounding whitespace, optional sign, then at least one decimal
digit; anything else raises `ValueError`, here `none`. -/
def pyInt (s : String) : Option Int :=
  match stripWS s.toList with
  | [] => none
  | '-' :: rest =>
      if rest ≠ [] ∧ rest.all Char.isDigit then some (-(digitsToNat rest : Int)) else none
  | '+' :: rest =>
      if rest ≠ [] ∧ rest.all Char.isDigit then some ((digitsToNat rest : Int)) else none
  | cs =>
      if cs.all Char.isDigit then some ((digitsToNat cs : Int)) else none

/-! ### Addressing a backend with a canonical name -/

/-- Embeds the document-store addressing `db[table_name.lower()]` used by
every operation (lines 283, 323, 365, 402): the canonical name is lower-cased
to address the collection. -/
def mongoCollectionName (tableName : String) : String :=
  pyLower tableName

/-- Resolves a relational table by its native name, as the server resolves
the name interpolated into each SQL statement. -/
def findTable (db : DBState) (t : String) : Option MySQLTable :=
  db.mysqlTables.find? (fun tbl => tbl.name == t)

/-- Resolves a document collection by its native name. -/
def findCollection (db : DBState) (n : String) : Option MongoCollection :=
  db.mongoCollections.find? (fun c => c.name == n)

/-- Replaces the first element satisfying `p`; models writing one table or
collection back into the backend state. -/
def replaceFirst (p : α → Bool) (new : α) : List α → List α
  | [] => []
  | x :: xs => if p x then new :: xs else x :: replaceFirst p new xs

/-! ### SQL statements emitted by the relational branch -/

/-- SQL text of `f"DESCRIBE {table_name};"` (line 268). -/
def describeQuery (t : String) : String :=
  "DESCRIBE " ++ t ++ ";"

/-- SQL text of `f"SELECT * FROM {table_name}"` (line 272). -/
def selectAllQuery (t : String) : String :=
  "SELECT * FROM " ++ t

/-- SQL text of the INSERT emitted at lines 314-317: an explicit empty column
list followed by one positional placeholder per supplied value. -/
def insertQuery (t : String) (numValues : Nat) : String :=
  "INSERT INTO " ++ t ++ " () VALUES (" ++
    String.intercalate ", " (List.replicate numValues "%s") ++ ")"

/-- SQL text of the UPDATE emitted at line 357: the WHERE clause names the
literal column `_id`. -/
def updateQuery (t col : String) : String :=
  "UPDATE " ++ t ++ " SET " ++ col ++ " = %s WHERE _id = %s"

/-- SQL text of the DELETE emitted at line 394: the WHERE clause names the
literal column `_id`. -/
def deleteQuery (t : String) : String :=
  "DELETE FROM " ++ t ++ " WHERE _id = %s"

/-! ### Relational statement execution

Semantics of the emitted statements against a table state, following the
documented behaviour of the relational backend (spec section 6): an explicit
column list must match the value count, a column named in SET or WHERE must
exist, and the WHERE comparison selects the rows whose value in that column
equals the bound key. -/

/-- Position of a column name in the table's declaration order. -/
def colIndexAux (c : String) : List String → Nat → Option Nat
  | [], _ => none
  | x :: xs, i => if x = c then some i else colIndexAux c xs (i + 1)

/-- Position of a column name in the table's declaration order. -/
def colIndex (tbl : MySQLTable) (c : String) : Option Nat :=
  colIndexAux c tbl.columns 0

/-- Executes the emitted INSERT against a table.  The statement's explicit
column list is empty, and the relational backend requires the number of bound
values to equal the number of listed columns (column-count mismatch error
1136 otherwise), so the statement can only succeed with zero values. -/
def execInsert (tbl : MySQLTable) (vals : List Value) : Except Exn MySQLTable :=
  if vals.length = 0 then Except.ok { tbl with rows := tbl.rows ++ [vals] }
  else Except.error (Exn.dbError "1136: Column count does not match value count")

/-- Executes `UPDATE t SET col = %s WHERE _id = %s`: errors when `col` or
`_id` is not a column of the table, otherwise sets `col` in every row whose
`_id`-column value equals the key. -/
def execUpdate (tbl : MySQLTable) (col : String) (v k : Value) : Except Exn MySQLTable :=
  match colIndex tbl col, colIndex tbl "_id" with
  | some ci, some ki =>
      Except.ok { tbl with
        rows := tbl.rows.map (fun r => if r[ki]? = some k then r.set ci v else r) }
  | _, _ => Except.error (Exn.dbError "1054: Unknown column")

/-- Executes `DELETE FROM t WHERE _id = %s`: errors when `_id` is not a
column of the table, otherwise removes every row whose `_id`-column value
equals the key. -/
def execDelete (tbl : MySQLTable) (k : Value) : Except Exn MySQLTable :=
  match colIndex tbl "_id" with
  | some ki =>
      Except.ok { tbl with rows := tbl.rows.filter (fun r => !(r[ki]? == some k)) }
  | none => Except.error (Exn.dbError "1054: Unknown column")

/-! ### Document operations -/

/-- Documents an unfiltered `find()` scan returns for a canonical table name:
the collection addressed by the lower-cased name, or no documents when that
collection does not exist (addressing a missing collection yields an empty
cursor, never an error). -/
def mongoDocs (db : DBState) (t : String) : List (List (String × Value)) :=
  match findCollection db (mongoCollectionName t) with
  | some c => c.documents
  | none => []

/-- Field order produced by describe for the document backend: the keys of
the sample document `find_one()` returns (the first document of the scan), or
`none` when the collection is empty and `find_one()` returns `None`
(line 324). -/
def describeMongo (db : DBState) (t : String) : Option (List String) :=
  match mongoDocs db t with
  | d :: _ => some (d.map Prod.fst)
  | [] => none

/-- The `$set` semantics of `update_one`: replaces the value of field `k`, or
appends the field when the document does not contain it. -/
def docSet (doc : List (String × Value)) (k : String) (v : Value) : List (String × Value) :=
  if doc.any (fun p => p.1 == k) then
    doc.map (fun p => if p.1 = k then (k, v) else p)
  else doc ++ [(k, v)]

/-- Value of a document's reserved `_id` field. -/
def docId (doc : List (String × Value)) : Option Value :=
  (doc.find? (fun p => p.1 == "_id")).map Prod.snd

/-- `update_one({_id: key}, {$set: {col: v}})` over the scan order: updates
at most the first matching document. -/
def mongoUpdateOne (col : String) (v k : Value) : List (List (String × Value)) → List (List (String × Value))
  | [] => []
  | d :: ds => if docId d = some k then docSet d col v :: ds else d :: mongoUpdateOne col v k ds

/-- `delete_one({_id: key})` over the scan order: removes at most the first
matching document. -/
def mongoDeleteOne (k : Value) : List (List (String × Value)) → List (List (String × Value))
  | [] => []
  | d :: ds => if docId d = some k then ds else d :: mongoDeleteOne k ds

/-- Writes an updated collection back into the state. -/
def setCollection (db : DBState) (cname : String) (c : MongoCollection) : DBState :=
  { db with mongoCollections := replaceFirst (fun x => x.name == cname) c db.mongoCollections }

/-- Writes an updated table back into the state. -/
def setTable (db : DBState) (t : String) (tbl : MySQLTable) : DBState :=
  { db with mysqlTables := replaceFirst (fun x => x.name == t) tbl db.mysqlTables }

/-! ### The four operations

Each operation iterates `self.__db_connections.items()` in its insertion
order, `[MYSQL, MONGODB]`, guarding each branch by membership of the selected
canonical name in that backend's catalog.  The loop bodies are unrolled for
the two connected backends. -/

/-- Data logged for one backend by `__show_data`: the field list and the
records. -/
structure ShownData where
  source : DatabaseType
  fields : List String
  records : List (List Value)
deriving DecidableEq, Repr

/-- Relational half of `__show_data` (lines 265-278): `DESCRIBE` yields the
columns, `SELECT *` yields the rows.  Under the catalog guard the table
exists, so resolution cannot fail; a vanished table would surface as a driver
error. -/
def showDataMySQL (db : DBState) (t : String) : Except Exn ShownData :=
  match findTable db t with
  | some tbl => Except.ok ⟨DatabaseType.MYSQL, tbl.columns, tbl.rows⟩
  | none => Except.error (Exn.dbError "1146: Table does not exist")

/-- Document half of `__show_data` (lines 280-297): scans the collection
addressed by the lower-cased name, then unconditionally reads
`documents[0].keys()` for the field list — an empty scan raises `IndexError`,
which is not a driver `Error`. -/
def showDataMongo (db : DBState) (t : String) : Except Exn ShownData :=
  match mongoDocs db t with
  | [] => Except.error (Exn.otherError "IndexError: no such item for Cursor instance")
  | d :: ds =>
      Except.ok ⟨DatabaseType.MONGODB, d.map Prod.fst, (d :: ds).map (fun doc => doc.map Prod.snd)⟩

/-- Embeds `FrontendApplication.__show_data` (lines 261-297): backends are
visited in order `[MYSQL, MONGODB]`; each branch runs only when the canonical
name is in that backend's catalog, and without `show_both` the loop breaks
after the first backend that contains the table. -/
def showData (db : DBState) (t : String) (showBoth : Bool) : Except Exn (List ShownData) :=
  if t ∈ getTablesInDatabase db .MYSQL then
    match showDataMySQL db t with
    | Except.error e => Except.error e
    | Except.ok d1 =>
        if !showBoth then Except.ok [d1]
        else if t ∈ getTablesInDatabase db .MONGODB then
          match showDataMongo db t with
          | Except.error e => Except.error e
          | Except.ok d2 => Except.ok [d1, d2]
        else Except.ok [d1]
  else if t ∈ getTablesInDatabase db .MONGODB then
    match showDataMongo db t with
    | Except.error e => Except.error e
    | Except.ok d2 => Except.ok [d2]
  else Except.ok []

/-- Document half of `__insert_data` (lines 320-329): the field order comes
from `find_one().keys()` — `AttributeError` when the collection is empty, as
`find_one()` returns `None` — and the document zips those fields against the
supplied values before `insert_one` appends it. -/
def mongoInsert (db : DBState) (t : String) (valuesList : List String) : Except Exn DBState :=
  let cname := mongoCollectionName t
  match findCollection db cname with
  | none => Except.error (Exn.otherError "AttributeError: NoneType object has no attribute keys")
  | some c =>
      match c.documents with
      | [] => Except.error (Exn.otherError "AttributeError: NoneType object has no attribute keys")
      | d :: _ =>
          let columns := d.map Prod.fst
          let doc := columns.zip (valuesList.map Value.str)
          Except.ok (setCollection db cname { c with documents := c.documents ++ [doc] })

/-- Embeds `FrontendApplication.__insert_data` (lines 299-337) after the
input values have been split: both backends containing the canonical name are
attempted in order, with no break; an exception from the first aborts the
iteration before the second. -/
def insertData (db : DBState) (t : String) (valuesList : List String) : Except Exn DBState :=
  let step1 : Except Exn DBState :=
    if t ∈ getTablesInDatabase db .MYSQL then
      match findTable db t with
      | some tbl =>
          match execInsert tbl (valuesList.map Value.str) with
          | Except.ok tbl' => Except.ok (setTable db t tbl')
          | Except.error e => Except.error e
      | none => Except.error (Exn.dbError "1146: Table does not exist")
    else Except.ok db
  match step1 with
  | Except.error e => Except.error e
  | Except.ok db1 =>
      if t ∈ getTablesInDatabase db1 .MONGODB then mongoInsert db1 t valuesList
      else Except.ok db1

/-- Document half of `__update_data` (lines 362-369): `update_one` keyed on
the integer `_id`; addressing a missing collection matches nothing and does
not raise. -/
def mongoUpdate (db : DBState) (t col : String) (v : Value) (key : Int) : DBState :=
  let cname := mongoCollectionName t
  match findCollection db cname with
  | none => db
  | some c =>
      setCollection db cname { c with documents := mongoUpdateOne col v (Value.int key) c.documents }

/-- Embeds `FrontendApplication.__update_data` (lines 339-377) after the
prompts: the entry id is parsed by `int()` (line 346, `ValueError` on
non-integer input, before any backend is addressed), the column name is
lower-cased (line 347), and both backends containing the canonical name are
written, the relational one via `UPDATE ... WHERE _id = %s` and the document
one via `update_one({_id: ...}, {$set: ...})`. -/
def updateData (db : DBState) (t idInput colInput newValue : String) : Except Exn DBState :=
  match pyInt idInput with
  | none => Except.error (Exn.otherError "ValueError: invalid literal for int() with base 10")
  | some selectedId =>
      let col := pyLower colInput
      let step1 : Except Exn DBState :=
        if t ∈ getTablesInDatabase db .MYSQL then
          match findTable db t with
          | some tbl =>
              match execUpdate tbl col (Value.str newValue) (Value.int selectedId) with
              | Except.ok tbl' => Except.ok (setTable db t tbl')
              | Except.error e => Except.error e
          | none => Except.error (Exn.dbError "1146: Table does not exist")
        else Except.ok db
      match step1 with
      | Except.error e => Except.error e
      | Except.ok db1 =>
          if t ∈ getTablesInDatabase db1 .MONGODB then
            Except.ok (mongoUpdate db1 t col (Value.str newValue) selectedId)
          else Except.ok db1

/-- Document half of `__delete_data` (lines 399-403): `delete_one` keyed on
the integer `_id`. -/
def mongoDelete (db : DBState) (t : String) (key : Int) : DBState :=
  let cname := mongoCollectionName t
  match findCollection db cname with
  | none => db
  | some c =>
      setCollection db cname { c with documents := mongoDeleteOne (Value.int key) c.documents }

/-- Embeds `FrontendApplication.__delete_data` (lines 379-411) after the
prompts: the entry id is parsed by `int()` (line 386), and both backends
containing the canonical name are written, the relational one via
`DELETE ... WHERE _id = %s` and the document one via `delete_one`. -/
def deleteData (db : DBState) (t idInput : String) : Except Exn DBState :=
  match pyInt idInput with
  | none => Except.error (Exn.otherError "ValueError: invalid literal for int() with base 10")
  | some selectedId =>
      let step1 : Except Exn DBState :=
        if t ∈ getTablesInDatabase db .MYSQL then
          match findTable db t with
          | some tbl =>
              match execDelete tbl (Value.int selectedId) with
              | Except.ok tbl' => Except.ok (setTable db t tbl')
              | Except.error e => Except.error e
          | none => Except.error (Exn.dbError "1146: Table does not exist")
        else Except.ok db
      match step1 with
      | Except.error e => Except.error e
      | Except.ok db1 =>
          if t ∈ getTablesInDatabase db1 .MONGODB then
            Except.ok (mongoDelete db1 t selectedId)
          else Except.ok db1

/-! ### Startup connection -/

/-- Reachability of the two backend servers, an environment parameter of
startup. -/
structure ServerEnv where
  mysqlReachable : Bool
  mongoReachable : Bool
deriving DecidableEq, Repr

/-- One iteration of the `__connect_to_databases` loop body (lines 81-126):
the relational branch checks `conn.is_connected()` and raises an `Error`
naming the configured database on failure; the document branch constructs a
`MongoClient` — which pymongo documents as lazy, contacting no server — and
stores it with no connectivity check, so it cannot fail here regardless of
`mongoReachable`; an unsupported type raises an `Error`. -/
def connectOne (env : ServerEnv) (d : DatabaseInformation) : Except Exn DatabaseType :=
  match d.db_type with
  | .MYSQL =>
      if env.mysqlReachable then Except.ok .MYSQL
      else Except.error (Exn.dbError ("Connection to database '" ++ d.name ++ "' failed."))
  | .MONGODB => Except.ok .MONGODB
  | .UNKNOWN =>
      Except.error (Exn.dbError ("Unsupported database type '" ++ DatabaseType.toStr d.db_type ++ "'."))

/-- The `__connect_to_databases` loop over a configuration list: connections
opened so far are accumulated in order; the first raise aborts the loop,
leaving the already-opened connections untouched (no retry, no close) and
attempting no later configuration. -/
def connectLoop (env : ServerEnv) : List DatabaseInformation → List DatabaseType × Option Exn
  | [] => ([], none)
  | d :: ds =>
      match connectOne env d with
      | Except.error e => ([], some e)
      | Except.ok conn =>
          let rest := connectLoop env ds
          (conn :: rest.1, rest.2)

/-- The fixed configuration list `self.__databases` (lines 74-77). -/
def defaultDatabases : List DatabaseInformation :=
  [{ db_type := .MYSQL, port := 3306 }, { db_type := .MONGODB, port := 27017 }]

/-- Embeds `FrontendApplication.__connect_to_databases` (lines 71-128):
the loop run on the fixed configuration, returning the connections opened (in
order) and the first startup exception, if any. -/
def connectToDatabases (env : ServerEnv) : List DatabaseType × Option Exn :=
  connectLoop env defaultDatabases

/-! ### The interactive loop's exception policy -/

/-- Fate of one loop iteration. -/
inductive LoopResult where
  | next
  | terminated (e : Exn)
deriving DecidableEq, Repr

/-- Embeds the `try`/`except` of the `while True` loop in `__init__`
(lines 52-65): a `KeyboardInterrupt` is re-raised, a driver `Error` is logged
and the loop continues at table selection, and any other exception matches no
handler and propagates, terminating the process. -/
def loopStep {α : Type} : Except Exn α → LoopResult
  | Except.ok _ => LoopResult.next
  | Except.error Exn.keyboardInterrupt => LoopResult.terminated Exn.keyboardInterrupt
  | Except.error (Exn.dbError _) => LoopResult.next
  | Except.error (Exn.otherError m) => LoopResult.terminated (Exn.otherError m)

/-! ### Concrete backend states used as witnesses and counterexamples -/

/-- Both backends hold a store under the same canonical name `RADAR1_DB`, and
the document backend additionally holds `sensor_log`. -/
def exSharedName : DBState :=
  { mysqlTables := [⟨"RADAR1_DB", ["_id", "x"], ["_id"], [[Value.int 1, Value.str "a"]]⟩]
    mongoCollections :=
      [⟨"radar1_db", [[("_id", Value.int 1), ("y", Value.str "b")]]⟩,
       ⟨"sensor_log", [[("_id", Value.int 7), ("level", Value.str "low")]]⟩] }

/-- A relational table whose declared primary-key column is `detection_id`
and which has no column named `_id`. -/
def exDetection : DBState :=
  { mysqlTables :=
      [⟨"RADAR_DETECTION", ["detection_id", "x"], ["detection_id"],
        [[Value.int 1, Value.str "a"]]⟩]
    mongoCollections := [] }

/-- A document-only state with one non-empty collection, for the insert
round trip. -/
def exDocOnly : DBState :=
  { mysqlTables := []
    mongoCollections := [⟨"readings", [[("_id", Value.int 1), ("x", Value.str "a")]]⟩] }

/-- A relational-only state with one empty table, for the insert round trip
failure. -/
def exRelOnly : DBState :=
  { mysqlTables := [⟨"T", ["a"], ["a"], []⟩]
    mongoCollections := [] }

/-- A document-only state whose single collection is empty. -/
def exEmptyOrders : DBState :=
  { mysqlTables := []
    mongoCollections := [⟨"orders", []⟩] }

/-- A second document-only state with an empty collection. -/
def exEmptyAudit : DBState :=
  { mysqlTables := []
    mongoCollections := [⟨"audit", []⟩] }

/-- Canonical name `T` lives in both backends: a relational table keyed by an
`_id` column and a document collection `t`. -/
def exBothT : DBState :=
  { mysqlTables := [⟨"T", ["_id", "x"], ["_id"], [[Value.int 1, Value.str "a"]]⟩]
    mongoCollections := [⟨"t", [[("_id", Value.int 1), ("x", Value.str "a")]]⟩] }

instance : IsTotal String pyLe where
  total a b := by
    show charLe a.data b.data = true ∨ charLe b.data a.data = true
    generalize a.data = as
    generalize b.data = bs
    induction as generalizing bs with
    | nil => left; rfl
    | cons x xs ih =>
        cases bs with
        | nil => right; rfl
        | cons y ys =>
            rcases Nat.lt_trichotomy x.toNat y.toNat with h | h | h
            · left; simp [charLe, h]
            · rcases ih ys with hh | hh
              · left; simp [charLe, h, hh]
              · right; simp [charLe, h, hh]
            · right; simp [charLe, h]

instance : IsTrans String pyLe where
  trans a b c h1 h2 := by
    show charLe a.data c.data = true
    rw [pyLe] at h1 h2
    generalize ha : a.data = as at h1
    generalize hb : b.data = bs at h1 h2
    generalize hc : c.data = cs at h2
    clear ha hb hc
    induction as generalizing bs cs with
    | nil => rfl
    | cons x xs ih =>
        cases bs with
        | nil => simp [charLe] at h1
        | cons y ys =>
            cases cs with
            | nil => simp [charLe] at h2
            | cons z zs =>
                rcases Nat.lt_trichotomy x.toNat y.toNat with hxy | hxy | hxy
                · rcases Nat.lt_trichotomy y.toNat z.toNat with hyz | hyz | hyz
                  · simp [charLe, Nat.lt_trans hxy hyz]
                  · have hxz : x.toNat < z.toNat := by omega
                    simp [charLe, hxz]
                  · simp [charLe, Nat.lt_asymm hyz, hyz] at h2
                · rcases Nat.lt_trichotomy y.toNat z.toNat with hyz | hyz | hyz
                  · have hxz : x.toNat < z.toNat := by omega
                    simp [charLe, hxz]
                  · simp [charLe, hxy] at h1
                    simp [charLe, hyz] at h2
                    have hxz : x.toNat = z.toNat := by omega
                    simp [charLe, hxz, ih ys h1 zs h2]
                  · simp [charLe, Nat.lt_asymm hyz, hyz] at h2
                · simp [charLe, Nat.lt_asymm hxy, hxy] at h1

/-! ### Helper lemmas on the Python list idioms -/

theorem mem_pyUnionInto (a : String) :
    ∀ (l acc : List String), a ∈ pyUnionInto acc l ↔ a ∈ acc ∨ a ∈ l := by
  intro l
  induction l with
  | nil => intro acc; simp [pyUnionInto]
  | cons x xs ih =>
      intro acc
      show a ∈ pyUnionInto (if x ∈ acc then acc else acc ++ [x]) xs ↔ _
      rw [ih]
      by_cases hx : x ∈ acc
      · simp only [if_pos hx, List.mem_cons]
        constructor
        · rintro (h | h)
          · exact Or.inl h
          · exact Or.inr (Or.inr h)
        · rintro (h | rfl | h)
          · exact Or.inl h
          · exact Or.inl hx
          · exact Or.inr h
      · simp only [if_neg hx, List.mem_append, List.mem_singleton, List.mem_cons]
        tauto

theorem nodup_pyUnionInto :
    ∀ (l acc : List String), acc.Nodup → (pyUnionInto acc l).Nodup := by
  intro l
  induction l with
  | nil => intro acc h; exact h
  | cons x xs ih =>
      intro acc h
      show (pyUnionInto (if x ∈ acc then acc else acc ++ [x]) xs).Nodup
      by_cases hx : x ∈ acc
      · rw [if_pos hx]; exact ih acc h
      · rw [if_neg hx]
        refine ih _ ?_
        simp [List.nodup_append, h, hx]

theorem pyUnionInto_eq_append :
    ∀ (l acc : List String), (acc ++ l).Nodup → pyUnionInto acc l = acc ++ l := by
  intro l
  induction l with
  | nil => intro acc _; simp [pyUnionInto]
  | cons x xs ih =>
      intro acc h
      have hx : x ∉ acc := by
        intro hmem
        rcases List.nodup_append.mp h with ⟨_, _, hdisj⟩
        exact hdisj hmem (List.mem_cons_self x xs)
      show pyUnionInto (if x ∈ acc then acc else acc ++ [x]) xs = acc ++ x :: xs
      rw [if_neg hx]
      have h' : ((acc ++ [x]) ++ xs).Nodup := by simpa [List.append_assoc] using h
      rw [ih _ h']
      simp [List.append_assoc]

theorem mem_pyDedup (a : String) (l : List String) : a ∈ pyDedup l ↔ a ∈ l := by
  rw [pyDedup, mem_pyUnionInto]
  simp

theorem nodup_pyDedup (l : List String) : (pyDedup l).Nodup :=
  nodup_pyUnionInto l [] List.nodup_nil

theorem pyDedup_eq_self {l : List String} (h : l.Nodup) : pyDedup l = l := by
  rw [pyDedup, pyUnionInto_eq_append l [] (by simpa using h)]
  simp

theorem pySort_perm (l : List String) : List.Perm (pySort l) l :=
  List.perm_insertionSort pyLe l

theorem pySort_sorted (l : List String) : (pySort l).Sorted pyLe :=
  List.sorted_insertionSort pyLe l

theorem mem_pySort (a : String) (l : List String) : a ∈ pySort l ↔ a ∈ l :=
  (pySort_perm l).mem_iff

/-! ### Helper lemmas on discovery and the catalog -/

theorem nodup_getTablesInDatabase (db : DBState) (t : DatabaseType) :
    (getTablesInDatabase db t).Nodup :=
  nodup_pyDedup _

theorem mem_uniqueTablesAux (db : DBState) (a : String) :
    ∀ (conns : List DatabaseType) (acc : List String),
      a ∈ conns.foldl (fun acc t => pyUnionInto acc (getTablesInDatabase db t)) acc ↔
        a ∈ acc ∨ ∃ t ∈ conns, a ∈ getTablesInDatabase db t := by
  intro conns
  induction conns with
  | nil => intro acc; simp
  | cons c cs ih =>
      intro acc
      rw [List.foldl_cons, ih, mem_pyUnionInto]
      simp only [List.mem_cons]
      constructor
      · rintro ((h | h) | ⟨t, ht, hmem⟩)
        · exact Or.inl h
        · exact Or.inr ⟨c, Or.inl rfl, h⟩
        · exact Or.inr ⟨t, Or.inr ht, hmem⟩
      · rintro (h | ⟨t, (rfl | ht), hmem⟩)
        · exact Or.inl (Or.inl h)
        · exact Or.inl (Or.inr hmem)
        · exact Or.inr ⟨t, ht, hmem⟩

theorem mem_uniqueTables (db : DBState) (a : String) (conns : List DatabaseType) :
    a ∈ uniqueTables db conns ↔ ∃ t ∈ conns, a ∈ getTablesInDatabase db t := by
  rw [uniqueTables, mem_uniqueTablesAux]
  simp

theorem nodup_uniqueTablesAux (db : DBState) :
    ∀ (conns : List DatabaseType) (acc : List String),
      acc.Nodup →
      (conns.foldl (fun acc t => pyUnionInto acc (getTablesInDatabase db t)) acc).Nodup := by
  intro conns
  induction conns with
  | nil => intro acc h; exact h
  | cons c cs ih =>
      intro acc h
      rw [List.foldl_cons]
      exact ih _ (nodup_pyUnionInto _ _ h)

theorem nodup_uniqueTables (db : DBState) (conns : List DatabaseType) :
    (uniqueTables db conns).Nodup :=
  nodup_uniqueTablesAux db conns [] List.nodup_nil

theorem uniqueTables_single (db : DBState) (b : DatabaseType) :
    uniqueTables db [b] = getTablesInDatabase db b := by
  show pyUnionInto [] (getTablesInDatabase db b) = getTablesInDatabase db b
  have h : (([] : List String) ++ getTablesInDatabase db b).Nodup := by
    simpa using nodup_getTablesInDatabase db b
  rw [pyUnionInto_eq_append _ [] h]
  simp

theorem count_catalog (db : DBState) (conns : List DatabaseType) (a : String) :
    (askToSelectTableCatalog db conns).count a = (uniqueTables db conns).count a :=
  (pySort_perm _).count_eq a

/-! ### Helper lemmas on writing one store back into the state -/

theorem find?_replaceFirst {α : Type} {p : α → Bool} {new : α} (hnew : p new = true) :
    ∀ {l : List α} {c : α}, l.find? p = some c →
      (replaceFirst p new l).find? p = some new := by
  intro l
  induction l with
  | nil => intro c h; simp at h
  | cons x xs ih =>
      intro c h
      by_cases hp : p x
      · show ((if p x then new :: xs else x :: replaceFirst p new xs).find? p) = some new
        rw [if_pos hp]
        simp [List.find?_cons_of_pos, hnew]
      · show ((if p x then new :: xs else x :: replaceFirst p new xs).find? p) = some new
        rw [if_neg hp]
        rw [List.find?_cons_of_neg _ (by simpa using hp)] at h ⊢
        exact ih h

theorem map_replaceFirst {α β : Type} {p : α → Bool} {new : α} {f : α → β} :
    ∀ {l : List α} {c : α}, l.find? p = some c → f new = f c →
      (replaceFirst p new l).map f = l.map f := by
  intro l
  induction l with
  | nil => intro c h _; simp at h
  | cons x xs ih =>
      intro c h hf
      by_cases hp : p x
      · have hc : c = x := by
          rw [List.find?_cons_of_pos _ hp] at h
          exact (Option.some.inj h).symm
        show ((if p x then new :: xs else x :: replaceFirst p new xs).map f) = _
        rw [if_pos hp]
        simp [hf, hc]
      · show ((if p x then new :: xs else x :: replaceFirst p new xs).map f) = _
        rw [if_neg hp]
        rw [List.find?_cons_of_neg _ (by simpa using hp)] at h
        simp [ih h hf]

theorem findCollection_setCollection {db : DBState} {cname : String} {c c' : MongoCollection}
    (hfind : findCollection db cname = some c) (hname : c'.name = cname) :
    findCollection (setCollection db cname c') cname = some c' := by
  unfold findCollection setCollection at *
  exact find?_replaceFirst (by simp [hname]) hfind

theorem getTables_setCollection_mysql (db : DBState) (cname : String) (c' : MongoCollection) :
    getTablesInDatabase (setCollection db cname c') .MYSQL = getTablesInDatabase db .MYSQL :=
  rfl

theorem getTables_setCollection_mongo {db : DBState} {cname : String} {c c' : MongoCollection}
    (hfind : findCollection db cname = some c) (hname : c'.name = c.name) :
    getTablesInDatabase (setCollection db cname c') .MONGODB =
      getTablesInDatabase db .MONGODB := by
  unfold getTablesInDatabase
  simp only [normalizedNames, nativeNames, setCollection]
  rw [map_replaceFirst hfind hname]

theorem findTable_setTable {db : DBState} {t : String} {tbl tbl' : MySQLTable}
    (hfind : findTable db t = some tbl) (hname : tbl'.name = t) :
    findTable (setTable db t tbl') t = some tbl' := by
  unfold findTable setTable at *
  exact find?_replaceFirst (by simp [hname]) hfind

theorem getTables_setTable_mongo (db : DBState) (t : String) (tbl' : MySQLTable) :
    getTablesInDatabase (setTable db t tbl') .MONGODB = getTablesInDatabase db .MONGODB :=
  rfl

theorem getTables_setTable_mysql {db : DBState} {t : String} {tbl tbl' : MySQLTable}
    (hfind : findTable db t = some tbl) (hname : tbl'.name = tbl.name) :
    getTablesInDatabase (setTable db t tbl') .MYSQL = getTablesInDatabase db .MYSQL := by
  unfold getTablesInDatabase
  simp only [normalizedNames, nativeNames, setTable]
  rw [map_replaceFirst hfind hname]

/-! ### The claims -/

/-- C1: for every set of connected backends, the catalog presented for table
selection is the sorted, deduplicated union of the normalized native names of
all backends: for a single backend it equals the sorted deduplication of that
backend's normalized native names; it is sorted; a canonical name present in
both the relational and the document backend appears exactly once; and
membership in the two-backend catalog is exactly membership in either
backend's normalized names. -/
theorem c1_catalog_sorted_dedup_union (db : DBState) (b : DatabaseType) (n : String) :
    (askToSelectTableCatalog db [b] = pySort (pyDedup (normalizedNames db b))) ∧
    ((askToSelectTableCatalog db [b]).Sorted pyLe) ∧
    (n ∈ normalizedNames db .MYSQL → n ∈ normalizedNames db .MONGODB →
      (askToSelectTableCatalog db [DatabaseType.MYSQL, DatabaseType.MONGODB]).count n = 1) ∧
    (n ∈ askToSelectTableCatalog db [DatabaseType.MYSQL, DatabaseType.MONGODB] ↔
      n ∈ normalizedNames db .MYSQL ∨ n ∈ normalizedNames db .MONGODB) := by
  refine ⟨?_, pySort_sorted _, ?_, ?_⟩
  · rw [askToSelectTableCatalog, uniqueTables_single, getTablesInDatabase]
  · intro h1 _
    rw [count_catalog]
    refine List.count_eq_one_of_mem (nodup_uniqueTables db _) ?_
    rw [mem_uniqueTables]
    exact ⟨.MYSQL, by simp, (mem_pyDedup n _).mpr h1⟩
  · rw [askToSelectTableCatalog, mem_pySort, mem_uniqueTables]
    constructor
    · rintro ⟨t, ht, hmem⟩
      have hmem' := (mem_pyDedup n _).mp hmem
      simp only [List.mem_cons, List.not_mem_nil, or_false] at ht
      rcases ht with rfl | rfl
      · exact Or.inl hmem'
      · exact Or.inr hmem'
    · rintro (h | h)
      · exact ⟨.MYSQL, by simp, (mem_pyDedup n _).mpr h⟩
      · exact ⟨.MONGODB, by simp, (mem_pyDedup n _).mpr h⟩

/-- Witness for C1 at a concrete state: the canonical name `RADAR1_DB` is a
normalized native name of both backends, and the catalog lists it exactly
once. -/
theorem c1_catalog_sorted_dedup_union_witness :
    ("RADAR1_DB" ∈ normalizedNames exSharedName .MYSQL) ∧
    ("RADAR1_DB" ∈ normalizedNames exSharedName .MONGODB) ∧
    (askToSelectTableCatalog exSharedName [DatabaseType.MYSQL, DatabaseType.MONGODB]).count
      "RADAR1_DB" = 1 :=
  ⟨by decide, by decide,
    (c1_catalog_sorted_dedup_union exSharedName .MYSQL "RADAR1_DB").2.2.1
      (by decide) (by decide)⟩

/-- C2: the normalization rule is asymmetric: relational native names enter
the catalog unchanged (and only they do), document native names enter it
upper-cased (and every catalog entry of the document backend is the
upper-casing of some native name); when a canonical name addresses a backend
the relational statements interpolate it unchanged while the document
collection is addressed by its lower-cased form, which recovers the native
name whenever lower-casing undoes the upper-casing. -/
theorem c2_normalization_asymmetry (db : DBState) (n m t : String) :
    (n ∈ nativeNames db .MYSQL → n ∈ getTablesInDatabase db .MYSQL) ∧
    (n ∈ getTablesInDatabase db .MYSQL → n ∈ nativeNames db .MYSQL) ∧
    (m ∈ nativeNames db .MONGODB → pyUpper m ∈ getTablesInDatabase db .MONGODB) ∧
    (∀ x ∈ getTablesInDatabase db .MONGODB, ∃ y ∈ nativeNames db .MONGODB, x = pyUpper y) ∧
    (selectAllQuery t = "SELECT * FROM " ++ t) ∧
    (describeQuery t = "DESCRIBE " ++ t ++ ";") ∧
    (mongoCollectionName t = pyLower t) ∧
    (pyLower (pyUpper m) = m → mongoCollectionName (pyUpper m) = m) := by
  refine ⟨?_, ?_, ?_, ?_, rfl, rfl, rfl, ?_⟩
  · intro h
    exact (mem_pyDedup n _).mpr h
  · intro h
    exact (mem_pyDedup n _).mp h
  · intro h
    exact (mem_pyDedup _ _).mpr (List.mem_map_of_mem pyUpper h)
  · intro x hx
    rcases List.mem_map.mp ((mem_pyDedup x _).mp hx) with ⟨y, hy, hxy⟩
    exact ⟨y, hy, hxy.symm⟩
  · intro h
    show pyLower (pyUpper m) = m
    exact h

/-- Witness for C2 at a concrete state: the document native `sensor_log`
appears in the document catalog as `SENSOR_LOG`, the relational native
`RADAR1_DB` appears unchanged, and lower-casing the canonical name recovers
the document native name. -/
theorem c2_normalization_asymmetry_witness :
    ("RADAR1_DB" ∈ nativeNames exSharedName .MYSQL) ∧
    ("RADAR1_DB" ∈ getTablesInDatabase exSharedName .MYSQL) ∧
    ("sensor_log" ∈ nativeNames exSharedName .MONGODB) ∧
    (pyUpper "sensor_log" ∈ getTablesInDatabase exSharedName .MONGODB) ∧
    (pyLower (pyUpper "sensor_log") = "sensor_log") ∧
    (mongoCollectionName (pyUpper "sensor_log") = "sensor_log") := by
  have h := c2_normalization_asymmetry exSharedName "RADAR1_DB" "sensor_log" "X"
  exact ⟨by decide, h.1 (by decide), by decide, h.2.2.1 (by decide), by decide,
    h.2.2.2.2.2.2.2 (by decide)⟩

/-- C3 counterexample: at a table whose declared primary-key column is
`detection_id` (and which has no `_id` column), the emitted UPDATE and DELETE
are not keyed on the discovered primary-key column: their WHERE clauses name
the literal column `_id`, no catalog-metadata discovery occurs, and executing
the operations fails with an unknown-column error instead of targeting the
primary key. -/
theorem c3_counterexample :
    ((findTable exDetection "RADAR_DETECTION").map (fun tbl => tbl.pkColumns) =
      some ["detection_id"]) ∧
    (updateQuery "RADAR_DETECTION" "x" ≠
      "UPDATE RADAR_DETECTION SET x = %s WHERE detection_id = %s") ∧
    (updateQuery "RADAR_DETECTION" "x" =
      "UPDATE RADAR_DETECTION SET x = %s WHERE _id = %s") ∧
    (deleteQuery "RADAR_DETECTION" ≠
      "DELETE FROM RADAR_DETECTION WHERE detection_id = %s") ∧
    (deleteQuery "RADAR_DETECTION" = "DELETE FROM RADAR_DETECTION WHERE _id = %s") ∧
    (updateData exDetection "RADAR_DETECTION" "1" "x" "b" =
      Except.error (Exn.dbError "1054: Unknown column")) ∧
    (deleteData exDetection "RADAR_DETECTION" "1" =
      Except.error (Exn.dbError "1054: Unknown column")) :=
  ⟨by decide, by decide, rfl, by decide, rfl, by decide, by decide⟩

/-- C3 (amended): the relational update and delete key their WHERE clause on
the fixed column name `_id`; no primary-key column is discovered from catalog
metadata and the declared primary-key columns play no role.  The emitted
statements name `_id` literally; when the table does have the addressed
columns, update rewrites exactly the rows whose `_id`-column value equals the
key (any row with a different `_id` value survives unchanged) and delete
keeps exactly the rows whose `_id`-column value differs from the key. -/
theorem c3_amended_fixed_id_key (t col : String) (tbl : MySQLTable) (v k : Value)
    (ci ki : Nat) (hc : colIndex tbl col = some ci) (hk : colIndex tbl "_id" = some ki) :
    (updateQuery t col = "UPDATE " ++ t ++ " SET " ++ col ++ " = %s WHERE _id = %s") ∧
    (deleteQuery t = "DELETE FROM " ++ t ++ " WHERE _id = %s") ∧
    (execUpdate tbl col v k =
      Except.ok { tbl with
        rows := tbl.rows.map (fun r => if r[ki]? = some k then r.set ci v else r) }) ∧
    (execDelete tbl k =
      Except.ok { tbl with rows := tbl.rows.filter (fun r => !(r[ki]? == some k)) }) ∧
    (∀ r ∈ tbl.rows, r[ki]? ≠ some k →
      ∃ tbl', execUpdate tbl col v k = Except.ok tbl' ∧ r ∈ tbl'.rows) := by
  refine ⟨rfl, rfl, ?_, ?_, ?_⟩
  · simp [execUpdate, hc, hk]
  · simp [execDelete, hk]
  · intro r hr hne
    refine ⟨{ tbl with
        rows := tbl.rows.map (fun r => if r[ki]? = some k then r.set ci v else r) },
      by simp [execUpdate, hc, hk], ?_⟩
    show r ∈ tbl.rows.map (fun r => if r[ki]? = some k then r.set ci v else r)
    exact List.mem_map.mpr ⟨r, hr, if_neg hne⟩

/-- Witness for the amended C3 at a concrete table keyed by an `_id` column:
updating with a key matching no `_id` value succeeds and leaves the row in
place. -/
theorem c3_amended_fixed_id_key_witness :
    ∃ tbl', execUpdate ⟨"T", ["_id", "x"], ["_id"], [[Value.int 1, Value.str "a"]]⟩ "x"
        (Value.str "b") (Value.int 2) = Except.ok tbl' ∧
      [Value.int 1, Value.str "a"] ∈ tbl'.rows :=
  (c3_amended_fixed_id_key "T" "x"
      ⟨"T", ["_id", "x"], ["_id"], [[Value.int 1, Value.str "a"]]⟩
      (Value.str "b") (Value.int 2) 1 0 (by decide) (by decide)).2.2.2.2
    [Value.int 1, Value.str "a"] (by decide) (by decide)

/-- C4: the relational INSERT is emitted with an explicit empty column list,
so its values are not bound to the table's natural column order: with two
values the statement text is `INSERT INTO RADAR_DETECTION () VALUES (%s, %s)`
and executing it fails with the column-count mismatch error, inserting
nothing.  The document half of the claim does hold: the inserted document
zips the supplied ordered values against the field order produced by
describe. -/
theorem c4_insert_empty_column_list :
    (insertQuery "RADAR_DETECTION" 2 = "INSERT INTO RADAR_DETECTION () VALUES (%s, %s)") ∧
    (insertData exDetection "RADAR_DETECTION" ["1", "2"] =
      Except.error (Exn.dbError "1136: Column count does not match value count")) ∧
    (describeMongo exDocOnly "READINGS" = some ["_id", "x"]) ∧
    (insertData exDocOnly "READINGS" ["2", "b"] = Except.ok
      { mysqlTables := []
        mongoCollections := [⟨"readings",
          [[("_id", Value.int 1), ("x", Value.str "a")],
           [("_id", Value.str "2"), ("x", Value.str "b")]]⟩] }) :=
  ⟨rfl, by decide, by decide, by decide⟩

/-- C5 counterexample: on the relational backend the insert/select round trip
fails at a concrete state: the insert into table `T` errors (the emitted
INSERT declares zero columns), no post-insert state exists, and the table
shows no record at all. -/
theorem c5_counterexample :
    (insertData exRelOnly "T" ["x"] =
      Except.error (Exn.dbError "1136: Column count does not match value count")) ∧
    (¬ ∃ db', insertData exRelOnly "T" ["x"] = Except.ok db') ∧
    (showData exRelOnly "T" false = Except.ok [⟨DatabaseType.MYSQL, ["a"], []⟩]) := by
  refine ⟨by decide, ?_, by decide⟩
  rintro ⟨db', h⟩
  have he : insertData exRelOnly "T" ["x"] =
      Except.error (Exn.dbError "1136: Column count does not match value count") := by decide
  rw [he] at h
  exact Except.noConfusion h

/-- C5 (amended): the insert/select round trip holds for the document
backend: when the canonical name lives only in the document backend, the
addressed collection is non-empty (so describe yields a field order) and the
caller supplies exactly one value per field, the insert succeeds and the
subsequent select contains a record whose field values are exactly the
supplied values under the field order describe returned; for the relational
backend the emitted zero-column INSERT always fails, so no relational round
trip exists. -/
theorem c5_amended_document_roundtrip (db : DBState) (t : String) (vals : List String)
    (c : MongoCollection) (d : List (String × Value)) (ds : List (List (String × Value)))
    (hnom : t ∉ getTablesInDatabase db .MYSQL)
    (hmon : t ∈ getTablesInDatabase db .MONGODB)
    (hfind : findCollection db (mongoCollectionName t) = some c)
    (hdocs : c.documents = d :: ds)
    (hlen : vals.length = (d.map Prod.fst).length) :
    ∃ db' sd, insertData db t vals = Except.ok db' ∧
      describeMongo db t = some (d.map Prod.fst) ∧
      showData db' t false = Except.ok [sd] ∧
      sd.fields = d.map Prod.fst ∧
      vals.map Value.str ∈ sd.records := by
  have hcname : c.name = mongoCollectionName t := by
    have := List.find?_some hfind
    simpa using this
  set doc : List (String × Value) := (d.map Prod.fst).zip (vals.map Value.str) with hdocdef
  set c' : MongoCollection := { c with documents := c.documents ++ [doc] } with hc'def
  have hname' : c'.name = c.name := rfl
  refine ⟨setCollection db (mongoCollectionName t) c',
    ⟨.MONGODB, d.map Prod.fst,
      ((d :: ds) ++ [doc]).map (fun x => x.map Prod.snd)⟩, ?_, ?_, ?_, rfl, ?_⟩
  · rw [insertData]
    simp only [if_neg hnom]
    rw [if_pos hmon]
    rw [mongoInsert, hfind]
    simp [hdocs, hc'def]
  · simp [describeMongo, mongoDocs, hfind, hdocs]
  · have hfind' : findCollection (setCollection db (mongoCollectionName t) c')
        (mongoCollectionName t) = some c' :=
      findCollection_setCollection hfind (hname'.trans hcname)
    have hmon' : t ∈ getTablesInDatabase (setCollection db (mongoCollectionName t) c')
        .MONGODB := by
      rw [getTables_setCollection_mongo hfind hname']
      exact hmon
    rw [showData]
    rw [if_neg (by rw [getTables_setCollection_mysql]; exact hnom)]
    rw [if_pos hmon']
    rw [showDataMongo, mongoDocs, hfind']
    simp [hdocs]
  · show vals.map Value.str ∈ ((d :: ds) ++ [doc]).map (fun x => x.map Prod.snd)
    have hsnd : doc.map Prod.snd = vals.map Value.str := by
      rw [hdocdef]
      apply List.map_snd_zip
      simp [hlen]
    exact List.mem_map.mpr ⟨doc, by simp, hsnd⟩

/-- Witness for the amended C5 at a concrete document-only state. -/
theorem c5_amended_document_roundtrip_witness :
    ∃ db' sd, insertData exDocOnly "READINGS" ["2", "b"] = Except.ok db' ∧
      describeMongo exDocOnly "READINGS" = some ["_id", "x"] ∧
      showData db' "READINGS" false = Except.ok [sd] ∧
      sd.fields = ["_id", "x"] ∧
      ["2", "b"].map Value.str ∈ sd.records :=
  c5_amended_document_roundtrip exDocOnly "READINGS" ["2", "b"]
    ⟨"readings", [[("_id", Value.int 1), ("x", Value.str "a")]]⟩
    [("_id", Value.int 1), ("x", Value.str "a")] []
    (by decide) (by decide) (by decide) rfl (by decide)

/-- C6 counterexample: with the relational server reachable and the document
server unreachable, startup raises no error at all: the document client is
stored without any connectivity check, so a document backend that cannot be
connected does not cause an error to be raised, and startup is not aborted. -/
theorem c6_counterexample :
    (connectToDatabases ⟨true, false⟩ =
      ([DatabaseType.MYSQL, DatabaseType.MONGODB], none)) ∧
    ((⟨true, false⟩ : ServerEnv).mongoReachable = false) :=
  ⟨by decide, rfl⟩

/-- C6 (amended): startup is fail-fast for the relational backend only.  The
configured backends are attempted in the fixed order relational-then-
document; when the relational server is unreachable the loop raises a driver
Error naming the configured database and opens nothing further, with no retry
and no closing of anything; when it is reachable startup always succeeds
whatever the state of the document server, whose client is constructed
without contacting it; and in a configuration listing the document backend
first, a relational failure leaves the already-opened document connection
open rather than closing it. -/
theorem c6_amended_failfast_relational_only (env : ServerEnv) :
    (env.mysqlReachable = false →
      connectToDatabases env =
        ([], some (Exn.dbError "Connection to database 'radar_db' failed."))) ∧
    (env.mysqlReachable = true →
      connectToDatabases env = ([DatabaseType.MYSQL, DatabaseType.MONGODB], none)) ∧
    (env.mysqlReachable = false →
      connectLoop env
          [{ db_type := .MONGODB, port := 27017 }, { db_type := .MYSQL, port := 3306 }] =
        ([DatabaseType.MONGODB],
          some (Exn.dbError "Connection to database 'radar_db' failed."))) := by
  obtain ⟨mr, gr⟩ := env
  refine ⟨fun h => ?_, fun h => ?_, fun h => ?_⟩ <;>
    (change mr = _ at h; subst h; rfl)

/-- Witness for the amended C6: an unreachable relational server aborts
startup with the identifying error. -/
theorem c6_amended_failfast_relational_only_witness :
    connectToDatabases ⟨false, true⟩ =
      ([], some (Exn.dbError "Connection to database 'radar_db' failed.")) :=
  (c6_amended_failfast_relational_only ⟨false, true⟩).1 rfl

/-- C7 counterexample: a failure during a post-connection operation that does
terminate the process: showing data for a canonical name whose document
collection is empty raises an `IndexError`, which the loop's `except Error`
clause does not catch, so the iteration terminates instead of resuming at
table selection. -/
theorem c7_counterexample :
    (showData exEmptyOrders "ORDERS" false =
      Except.error (Exn.otherError "IndexError: no such item for Cursor instance")) ∧
    (loopStep (showData exEmptyOrders "ORDERS" false) =
      LoopResult.terminated (Exn.otherError "IndexError: no such item for Cursor instance")) :=
  ⟨by decide, by decide⟩

/-- C7 (amended): the loop's exception policy: an operation failure surfaced
as the relational driver's Error is caught, logged and the loop resumes at
table selection, and a successful iteration likewise continues; but
`KeyboardInterrupt` and every exception that is not a driver Error — the
document-side failures such as pymongo errors or the IndexError of an empty
scan, and the ValueError of non-numeric key input — terminate the process;
and a relational connection failure at startup is fatal, surfacing before the
loop starts. -/
theorem c7_amended_error_policy (m : String) (db : DBState) (env : ServerEnv) :
    (loopStep (Except.error (Exn.dbError m) : Except Exn DBState) = LoopResult.next) ∧
    (loopStep (Except.ok db : Except Exn DBState) = LoopResult.next) ∧
    (loopStep (Except.error Exn.keyboardInterrupt : Except Exn DBState) =
      LoopResult.terminated Exn.keyboardInterrupt) ∧
    (loopStep (Except.error (Exn.otherError m) : Except Exn DBState) =
      LoopResult.terminated (Exn.otherError m)) ∧
    (env.mysqlReachable = false →
      (connectToDatabases env).2 =
        some (Exn.dbError "Connection to database 'radar_db' failed.")) := by
  obtain ⟨mr, gr⟩ := env
  refine ⟨rfl, rfl, rfl, rfl, fun h => ?_⟩
  change mr = false at h
  subst h
  rfl

/-- Witness for the amended C7: a driver error continues the loop, and an
unreachable relational server at startup yields the fatal error. -/
theorem c7_amended_error_policy_witness :
    (loopStep (Except.error (Exn.dbError "x") : Except Exn DBState) = LoopResult.next) ∧
    (connectToDatabases ⟨false, false⟩).2 =
      some (Exn.dbError "Connection to database 'radar_db' failed.") :=
  ⟨(c7_amended_error_policy "x" exBothT ⟨false, false⟩).1,
   (c7_amended_error_policy "x" exBothT ⟨false, false⟩).2.2.2.2 rfl⟩

/-- C8: an update invoked with a non-integer key value fails — Python's
`int()` on the key raises before any backend is addressed — rather than
silently matching no document: the operation returns an error and produces no
post-state, for the document backend in particular. -/
theorem c8_nonint_key_update_fails (db : DBState) (t idInput colInput newValue : String)
    (hbad : pyInt idInput = none) :
    (updateData db t idInput colInput newValue =
      Except.error (Exn.otherError "ValueError: invalid literal for int() with base 10")) ∧
    (¬ ∃ db', updateData db t idInput colInput newValue = Except.ok db') := by
  have h : updateData db t idInput colInput newValue =
      Except.error (Exn.otherError "ValueError: invalid literal for int() with base 10") := by
    rw [updateData, hbad]
  refine ⟨h, ?_⟩
  rintro ⟨db', hok⟩
  rw [h] at hok
  exact Except.noConfusion hok

/-- Witness for C8: the concrete non-integer key `abc` makes the update fail
with the ValueError. -/
theorem c8_nonint_key_update_fails_witness :
    (pyInt "abc" = none) ∧
    (updateData exBothT "T" "abc" "x" "v" =
      Except.error (Exn.otherError "ValueError: invalid literal for int() with base 10")) :=
  ⟨by decide, (c8_nonint_key_update_fails exBothT "T" "abc" "x" "v" (by decide)).1⟩

/-- C9: when the document collection addressed by show-data is empty, the
operation fails by indexing the first document of the scan: it surfaces the
`IndexError` of `documents[0]` instead of reporting an empty field list and
zero records, and since an `IndexError` is not a driver Error the loop does
not catch it and the process terminates. -/
theorem c9_empty_collection_scan_fails (db : DBState) (t : String) (c : MongoCollection)
    (sb : Bool)
    (hfind : findCollection db (mongoCollectionName t) = some c)
    (hempty : c.documents = [])
    (hnom : t ∉ getTablesInDatabase db .MYSQL)
    (hmon : t ∈ getTablesInDatabase db .MONGODB) :
    (showData db t sb =
      Except.error (Exn.otherError "IndexError: no such item for Cursor instance")) ∧
    (loopStep (showData db t sb) =
      LoopResult.terminated (Exn.otherError "IndexError: no such item for Cursor instance")) := by
  have h : showData db t sb =
      Except.error (Exn.otherError "IndexError: no such item for Cursor instance") := by
    rw [showData, if_neg hnom, if_pos hmon, showDataMongo, mongoDocs, hfind]
    simp [hempty]
  refine ⟨h, ?_⟩
  rw [h]
  rfl

/-- Witness for C9 at a concrete state with one empty collection. -/
theorem c9_empty_collection_scan_fails_witness :
    showData exEmptyAudit "AUDIT" false =
      Except.error (Exn.otherError "IndexError: no such item for Cursor instance") :=
  (c9_empty_collection_scan_fails exEmptyAudit "AUDIT" ⟨"audit", []⟩ false
    (by decide) rfl (by decide) (by decide)).1

/-- C10 counterexample: for insert the write fan-out fails: at a state where
canonical `T` lives in both backends, the insert is not applied to every
backend whose catalog contains it — the relational INSERT errors (it declares
zero columns), aborting the iteration before the document write, so no
post-state exists at all. -/
theorem c10_counterexample :
    ("T" ∈ getTablesInDatabase exBothT .MYSQL) ∧
    ("T" ∈ getTablesInDatabase exBothT .MONGODB) ∧
    (insertData exBothT "T" ["9"] =
      Except.error (Exn.dbError "1136: Column count does not match value count")) ∧
    (¬ ∃ db', insertData exBothT "T" ["9"] = Except.ok db') := by
  refine ⟨by decide, by decide, by decide, ?_⟩
  rintro ⟨db', h⟩
  have he : insertData exBothT "T" ["9"] =
      Except.error (Exn.dbError "1136: Column count does not match value count") := by decide
  rw [he] at h
  exact Except.noConfusion h

/-- C10 (amended): update and delete apply the mutation to every connected
backend whose catalog contains the selected canonical name — the write loop
never breaks early, so a name present in both backends is written to both in
one operation; insert attempts the backends in the same order but its
relational statement always fails, aborting the iteration before the document
write; and show-data without the show-both option stops after the first
backend that contains the table: when the relational backend contains it, the
result is the relational data alone, independent of the entire document
state. -/
theorem c10_amended_write_fanout (db : DBState) (t idInput colInput newValue : String)
    (k : Int) (tbl : MySQLTable) (c : MongoCollection) (ci ki : Nat)
    (hid : pyInt idInput = some k)
    (hfmy : findTable db t = some tbl)
    (hmy : t ∈ getTablesInDatabase db .MYSQL)
    (hmon : t ∈ getTablesInDatabase db .MONGODB)
    (hfmo : findCollection db (mongoCollectionName t) = some c)
    (hci : colIndex tbl (pyLower colInput) = some ci)
    (hki : colIndex tbl "_id" = some ki) :
    (∃ db', updateData db t idInput colInput newValue = Except.ok db' ∧
      findTable db' t =
        some { tbl with rows := tbl.rows.map (fun r =>
                 if r[ki]? = some (Value.int k) then r.set ci (Value.str newValue) else r) } ∧
      findCollection db' (mongoCollectionName t) =
        some { c with documents :=
                        mongoUpdateOne (pyLower colInput) (Value.str newValue)
                          (Value.int k) c.documents }) ∧
    (∃ db', deleteData db t idInput = Except.ok db' ∧
      findTable db' t =
        some { tbl with rows := tbl.rows.filter (fun r => !(r[ki]? == some (Value.int k))) } ∧
      findCollection db' (mongoCollectionName t) =
        some { c with documents := mongoDeleteOne (Value.int k) c.documents }) ∧
    (∀ M : List MongoCollection,
      showData { db with mongoCollections := M } t false =
        (showDataMySQL db t).map (fun x => [x])) := by
  have htblname : tbl.name = t := by
    have := List.find?_some hfmy
    simpa using this
  have hcname : c.name = mongoCollectionName t := by
    have := List.find?_some hfmo
    simpa using this
  refine ⟨?_, ?_, ?_⟩
  · set tblU : MySQLTable := { tbl with rows := tbl.rows.map (fun r =>
        if r[ki]? = some (Value.int k) then r.set ci (Value.str newValue) else r) } with htblU
    set cU : MongoCollection :=
      { c with documents :=
                 mongoUpdateOne (pyLower colInput) (Value.str newValue) (Value.int k)
                   c.documents } with hcU
    refine ⟨setCollection (setTable db t tblU) (mongoCollectionName t) cU, ?_, ?_, ?_⟩
    · rw [updateData, hid]
      simp only [if_pos hmy, hfmy]
      simp only [execUpdate, hci, hki]
      rw [if_pos
        (show t ∈ getTablesInDatabase (setTable db t tblU) .MONGODB from hmon)]
      rw [mongoUpdate]
      rw [show findCollection (setTable db t tblU) (mongoCollectionName t) = some c from hfmo]
    · exact findTable_setTable hfmy (show tblU.name = t from htblname)
    · exact findCollection_setCollection
        (show findCollection (setTable db t tblU) (mongoCollectionName t) = some c from hfmo)
        (show cU.name = mongoCollectionName t from hcname)
  · set tblD : MySQLTable := { tbl with
        rows := tbl.rows.filter (fun r => !(r[ki]? == some (Value.int k))) } with htblD
    set cD : MongoCollection :=
      { c with documents := mongoDeleteOne (Value.int k) c.documents } with hcD
    refine ⟨setCollection (setTable db t tblD) (mongoCollectionName t) cD, ?_, ?_, ?_⟩
    · rw [deleteData, hid]
      simp only [if_pos hmy, hfmy]
      simp only [execDelete, hki]
      rw [if_pos
        (show t ∈ getTablesInDatabase (setTable db t tblD) .MONGODB from hmon)]
      rw [mongoDelete]
      rw [show findCollection (setTable db t tblD) (mongoCollectionName t) = some c from hfmo]
    · exact findTable_setTable hfmy (show tblD.name = t from htblname)
    · exact findCollection_setCollection
        (show findCollection (setTable db t tblD) (mongoCollectionName t) = some c from hfmo)
        (show cD.name = mongoCollectionName t from hcname)
  · intro M
    rw [showData]
    rw [if_pos (show t ∈ getTablesInDatabase { db with mongoCollections := M } .MYSQL from hmy)]
    rw [show showDataMySQL { db with mongoCollections := M } t = showDataMySQL db t from rfl]
    cases hcase : showDataMySQL db t with
    | error e => rfl
    | ok d1 => rfl

/-- Witness for the amended C10 at a concrete state holding canonical `T` in
both backends: one update writes both the relational row and the document. -/
theorem c10_amended_write_fanout_witness :
    (∃ db', updateData exBothT "T" "1" "X" "zz" = Except.ok db' ∧
      findTable db' "T" = some ⟨"T", ["_id", "x"], ["_id"], [[Value.int 1, Value.str "zz"]]⟩ ∧
      findCollection db' "t" = some ⟨"t", [[("_id", Value.int 1), ("x", Value.str "zz")]]⟩) ∧
    (∃ db', deleteData exBothT "T" "1" = Except.ok db' ∧
      findTable db' "T" = some ⟨"T", ["_id", "x"], ["_id"], []⟩ ∧
      findCollection db' "t" = some ⟨"t", []⟩) ∧
    (showData { exBothT with mongoCollections := [] } "T" false =
      (showDataMySQL exBothT "T").map (fun x => [x])) := by
  have h := c10_amended_write_fanout exBothT "T" "1" "X" "zz" 1
    ⟨"T", ["_id", "x"], ["_id"], [[Value.int 1, Value.str "a"]]⟩
    ⟨"t", [[("_id", Value.int 1), ("x", Value.str "a")]]⟩ 1 0
    (by decide) (by decide) (by decide) (by decide) (by decide) (by decide) (by decide)
  obtain ⟨⟨du, hu1, hu2, hu3⟩, ⟨dd, hd1, hd2, hd3⟩, hs⟩ := h
  exact ⟨⟨du, hu1, hu2, hu3⟩, ⟨dd, hd1, hd2, hd3⟩, hs []⟩

end CT80
